import Mathlib

/-!
Shallow embedding of the rpmsg TTY driver (drivers/tty/rpmsg_tty.c).

Bytes are modelled as `Nat` (only comparisons with zero and the frame-type
bound occur, so no modular arithmetic is needed).  Kernel collaborators
(memory allocation, `rpmsg_trysend`, `rpmsg_get_buf_payload_size`,
`tty_port_register_device`, the tty flip-buffer free space) are passed in as
explicit parameters, and their observable effects (the frame handed to the
transport, the bytes inserted into the flip buffer, writer wakeups) are
returned as explicit result fields.
-/

namespace RpmsgTty

/-- MAX_TTY_RPMSG, rpmsg_tty.c line 14. -/
def MAX_TTY_RPMSG : Nat := 32

/-- enum rpmsg_tty_type_t, lines 21-25. -/
def RPMSG_DATA : Nat := 0

/-- enum rpmsg_tty_type_t, lines 21-25. -/
def RPMSG_CTRL : Nat := 1

/-- enum rpmsg_tty_type_t, lines 21-25. -/
def NUM_RPMSG_TTY_TYPE : Nat := 2

/-- enum rpmsg_tty_ctrl_t, lines 27-30. -/
def DATA_TERM_READY : Nat := 0

/-- Linux errno values used by the driver. -/
def EINVAL : Int := 22

/-- Linux errno ENOMEM. -/
def ENOMEM : Int := 12

/-- Linux errno ENOSPC. -/
def ENOSPC : Int := 28

/-- sizeof(struct rpmsg_tty_payload): a single u8 `cmd` plus a flexible
array member of size zero (lines 32-35). -/
def sizeof_rpmsg_tty_payload : Nat := 1

/-- sizeof(struct rpmsg_tty_ctrl): a single u8 `ctrl` plus a flexible array
member of size zero (lines 37-40). -/
def sizeof_rpmsg_tty_ctrl : Nat := 1

/-- Observable per-port state touched by the receive handlers: the `cts`
flag of `struct rpmsg_tty_port` (line 45), the bytes inserted into the tty
flip buffer, and the number of `tty_port_tty_wakeup` calls. -/
structure TtyState where
  cts : Bool
  buffered : List Nat
  wakeups : Nat
deriving Repr, DecidableEq

/-- rpmsg_tty_data_handler (lines 52-69).  `space` is the free room the tty
flip buffer reports (`tty_insert_flip_string_fixed_flag` copies at most that
many bytes).  The second component records whether the `if (!len) return;`
early-return branch was taken. -/
def rpmsg_tty_data_handler (space : Nat) (st : TtyState) (data : List Nat) :
    TtyState × Bool :=
  if data.length = 0 then (st, true)
  else ({ st with buffered := st.buffered ++ data.take space }, false)

/-- rpmsg_tty_ctrl_handler (lines 71-97).  The second component records
whether a `dev_err` rejection was hit (short message, or unknown control
id); in both rejection cases the state is untouched. -/
def rpmsg_tty_ctrl_handler (st : TtyState) (data : List Nat) :
    TtyState × Bool :=
  if data.length ≤ sizeof_rpmsg_tty_ctrl then (st, true)
  else
    if data.headD 0 = DATA_TERM_READY then
      if data.tail.headD 0 = 0 then ({ st with cts := false }, false)
      else ({ st with cts := true, wakeups := st.wakeups + 1 }, false)
    else (st, true)

/-- Result of the dispatcher `rpmsg_tty_cb`: the returned errno, the state
after any handler ran, and which handler (frame-type tag) was invoked with
which payload length (`none` when the message was rejected before
dispatch). -/
structure CbResult where
  ret : Int
  st : TtyState
  invoked : Option (Nat × Nat)
deriving Repr, DecidableEq

/-- rpmsg_tty_cb (lines 104-119): rejects messages with `len <=
sizeof(*rbuf)` or an out-of-range type tag with -EINVAL, otherwise
dispatches through `rpmsg_tty_handler[]` passing `len - sizeof(rbuf->cmd)`
bytes of payload. -/
def rpmsg_tty_cb (space : Nat) (st : TtyState) (data : List Nat) : CbResult :=
  if data.length ≤ sizeof_rpmsg_tty_payload ∨
      NUM_RPMSG_TTY_TYPE ≤ data.headD 0 then
    ⟨-EINVAL, st, none⟩
  else if data.headD 0 = RPMSG_DATA then
    ⟨0, (rpmsg_tty_data_handler space st data.tail).1,
      some (RPMSG_DATA, data.tail.length)⟩
  else
    ⟨0, (rpmsg_tty_ctrl_handler st data.tail).1,
      some (RPMSG_CTRL, data.tail.length)⟩

/-- Result of `rpmsg_tty_write`: the returned byte count or errno, and the
frame handed to `rpmsg_trysend` (`none` when the transport was never
called). -/
structure WriteResult where
  ret : Int
  attempted : Option (List Nat)
deriving Repr, DecidableEq

/-- rpmsg_tty_write (lines 192-234).  `msg_max_size` is what
`rpmsg_get_buf_payload_size` returns, `allocOk` whether `kzalloc` succeeds,
`trysendRet` the value `rpmsg_trysend` returns.  The frame is the zeroed
buffer with the RPMSG_DATA tag at index 0 and `msg_size - cmd_sz` bytes of
`buf` copied behind it. -/
def rpmsg_tty_write (cts : Bool) (msg_max_size : Int) (allocOk : Bool)
    (trysendRet : Int) (buf : List Nat) : WriteResult :=
  if cts = false then ⟨0, none⟩
  else if msg_max_size < 0 then ⟨msg_max_size, none⟩
  else
    let cmd_sz := sizeof_rpmsg_tty_payload
    let msg_size := min (buf.length + cmd_sz) msg_max_size.toNat
    if allocOk = false then ⟨-ENOMEM, none⟩
    else
      let frame := RPMSG_DATA :: buf.take (msg_size - cmd_sz)
      if trysendRet ≠ 0 then ⟨0, some frame⟩
      else ⟨((msg_size - cmd_sz : Nat) : Int), some frame⟩

/-- rpmsg_tty_write_room (lines 236-251): space stays 0 while `cts` is
clear, otherwise the transport payload size minus the one-byte header. -/
def rpmsg_tty_write_room (cts : Bool) (payload_size : Int) : Int :=
  if cts then payload_size - (sizeof_rpmsg_tty_payload : Int) else 0

/-- rpmsg_tty_write_control (lines 121-151).  It builds
`[RPMSG_CTRL, DATA_TERM_READY] ++ values` (note the hard-coded
DATA_TERM_READY at line 140) and swallows a negative `rpmsg_trysend`
result, returning 0. -/
def rpmsg_tty_write_control (allocOk : Bool) (trysendRet : Int)
    (values : List Nat) : Int × Option (List Nat) :=
  if allocOk = false then (-ENOMEM, none)
  else
    let frame := RPMSG_CTRL :: DATA_TERM_READY :: values
    if trysendRet < 0 then (0, some frame)
    else (trysendRet, some frame)

/-- Lowest id strictly below `n` that is not in `used`; scans 0,1,...
`lowestFree used n = some i` means `i` is the least free id below `n`. -/
def lowestFree (used : Finset Nat) : Nat → Option Nat
  | 0 => none
  | n + 1 =>
    match lowestFree used n with
    | some i => some i
    | none => if n ∈ used then none else some n

/-- idr_alloc(&tty_idr, cport, 0, MAX_TTY_RPMSG, ...) at line 272: the IDR
allocator hands out the lowest free id in [0, MAX_TTY_RPMSG), or fails when
the range is exhausted. -/
def idr_alloc (used : Finset Nat) : Option Nat :=
  lowestFree used MAX_TTY_RPMSG

/-- The fields of `struct rpmsg_tty_port` (lines 42-47) the claims are
about; `kzalloc` zero-fills the struct, so a fresh port has `cts = false`. -/
structure Port where
  id : Nat
  cts : Bool
deriving Repr, DecidableEq

/-- rpmsg_tty_alloc_cport (lines 263-281): zero-allocates the port, takes
an id from the IDR (registry of used ids), frees the port and returns
-ENOSPC when the IDR range is exhausted. -/
def rpmsg_tty_alloc_cport (kallocOk : Bool) (used : Finset Nat) :
    Except Int (Port × Finset Nat) :=
  if kallocOk = false then .error (-ENOMEM)
  else
    match idr_alloc used with
    | some i => .ok ({ id := i, cts := false }, insert i used)
    | none => .error (-ENOSPC)

/-- rpmsg_tty_release_cport (lines 283-290): removes the port id from the
IDR and frees the port. -/
def rpmsg_tty_release_cport (used : Finset Nat) (id : Nat) : Finset Nat :=
  used.erase id

/-- rpmsg_tty_probe (lines 327-365).  `register` models
`tty_port_register_device` (`.error e` when it returns an ERR_PTR).  The
result pairs the probe return value with the registry of used ids after
probe: on registration failure the port is destroyed and its id released
(err_destroy path, lines 360-364). -/
def rpmsg_tty_probe (kallocOk : Bool) (register : Except Int Unit)
    (used : Finset Nat) : Except Int Port × Finset Nat :=
  match rpmsg_tty_alloc_cport kallocOk used with
  | .error e => (.error e, used)
  | .ok (cport, used2) =>
    match register with
    | .ok _ => (.ok cport, used2)
    | .error e => (.error e, rpmsg_tty_release_cport used2 cport.id)

/-- Folds a sequence of valid inbound TerminalReady updates (one value byte
each) through rpmsg_tty_ctrl_handler, as the dispatcher would deliver
them. -/
def applyCtrlUpdates (st : TtyState) (updates : List Nat) : TtyState :=
  updates.foldl
    (fun s v => (rpmsg_tty_ctrl_handler s [DATA_TERM_READY, v]).1) st

/-- The Data-frame encoder implicit in rpmsg_tty_write (lines 214-220): tag
byte, then the payload truncated so the whole frame fits `msg_max_size`. -/
def encodeData (msg_max_size : Nat) (payload : List Nat) : List Nat :=
  RPMSG_DATA ::
    payload.take
      (min (payload.length + sizeof_rpmsg_tty_payload) msg_max_size -
        sizeof_rpmsg_tty_payload)

/-- The Control-frame encoder implicit in rpmsg_tty_write_control (lines
133-141): tag byte, control-kind byte, then the raw values (no size
check). -/
def encodeCtrl (values : List Nat) : List Nat :=
  RPMSG_CTRL :: DATA_TERM_READY :: values

/-- The decoder implicit in rpmsg_tty_cb (lines 107-116): validate length
and type tag, then split the frame into its kind and payload. -/
def decode (data : List Nat) : Option (Nat × List Nat) :=
  if data.length ≤ sizeof_rpmsg_tty_payload ∨
      NUM_RPMSG_TTY_TYPE ≤ data.headD 0 then none
  else some (data.headD 0, data.tail)

end RpmsgTty

namespace RpmsgTty

/-- Soundness of the lowest-free scan: a `none` result means every id below
the bound is taken. -/
theorem lowestFree_none {used : Finset Nat} :
    ∀ {n : Nat}, lowestFree used n = none → ∀ j < n, j ∈ used := by
  intro n
  induction n with
  | zero => intro _ j hj; omega
  | succ m ih =>
    intro h j hj
    rw [lowestFree] at h
    cases hm : lowestFree used m with
    | some k => rw [hm] at h; exact absurd h (by simp)
    | none =>
      rw [hm] at h
      by_cases hn : m ∈ used
      · rcases Nat.lt_succ_iff_lt_or_eq.mp hj with h1 | h1
        · exact ih hm j h1
        · exact h1 ▸ hn
      · rw [if_neg hn] at h; exact absurd h (by simp)

/-- Soundness of the lowest-free scan: a `some i` result is a free id below
the bound, and every smaller id is taken. -/
theorem lowestFree_some {used : Finset Nat} :
    ∀ {n i : Nat}, lowestFree used n = some i →
      i < n ∧ i ∉ used ∧ ∀ j < i, j ∈ used := by
  intro n
  induction n with
  | zero => intro i h; rw [lowestFree] at h; exact absurd h (by simp)
  | succ m ih =>
    intro i h
    rw [lowestFree] at h
    cases hm : lowestFree used m with
    | some k =>
      rw [hm] at h
      obtain rfl : k = i := by simpa using h
      obtain ⟨h1, h2, h3⟩ := ih hm
      exact ⟨Nat.lt_succ_of_lt h1, h2, h3⟩
    | none =>
      rw [hm] at h
      by_cases hn : m ∈ used
      · rw [if_pos hn] at h; exact absurd h (by simp)
      · rw [if_neg hn] at h
        obtain rfl : m = i := by simpa using h
        exact ⟨Nat.lt_succ_self m, hn, lowestFree_none hm⟩

/-- Completeness of the lowest-free scan: if `i` is free, below the bound,
and everything below it is taken, the scan returns exactly `i`. -/
theorem lowestFree_eq_some (used : Finset Nat) (n i : Nat) (hin : i < n)
    (hni : i ∉ used) (hlow : ∀ j < i, j ∈ used) :
    lowestFree used n = some i := by
  induction n with
  | zero => omega
  | succ m ih =>
    rw [lowestFree]
    rcases Nat.lt_succ_iff_lt_or_eq.mp hin with h | h
    · rw [ih h]
    · subst h
      cases hm : lowestFree used i with
      | some k =>
        obtain ⟨h1, h2, _⟩ := lowestFree_some hm
        exact absurd (hlow k h1) h2
      | none => rw [if_neg hni]

/-- Inversion of a successful rpmsg_tty_alloc_cport: the id it picks is in
range, was free, is the lowest free one, gets inserted, and the kzalloc
zero-fill leaves `cts` false. -/
theorem alloc_cport_ok (kOk : Bool) (used : Finset Nat) (p : Port)
    (used2 : Finset Nat)
    (h : rpmsg_tty_alloc_cport kOk used = .ok (p, used2)) :
    p.id < MAX_TTY_RPMSG ∧ p.id ∉ used ∧ (∀ j < p.id, j ∈ used) ∧
      used2 = insert p.id used ∧ p.cts = false := by
  rw [rpmsg_tty_alloc_cport] at h
  by_cases hk : kOk = false
  · rw [if_pos hk] at h; exact absurd h (by simp)
  · rw [if_neg hk] at h
    cases hm : idr_alloc used with
    | none => rw [hm] at h; exact absurd h (by simp)
    | some k =>
      rw [hm] at h
      obtain ⟨h1, h2⟩ : ({ id := k, cts := false } : Port) = p ∧
          insert k used = used2 := by simpa using h
      obtain ⟨hk1, hk2, hk3⟩ := lowestFree_some hm
      subst h1
      exact ⟨hk1, hk2, hk3, h2.symm, rfl⟩

/-- All-zero TerminalReady updates keep the flow-control flag false. -/
theorem applyCtrlUpdates_zeros (st : TtyState) (updates : List Nat)
    (hz : ∀ v ∈ updates, v = 0) (hc : st.cts = false) :
    (applyCtrlUpdates st updates).cts = false := by
  induction updates generalizing st with
  | nil => simpa [applyCtrlUpdates]
  | cons u rest ih =>
    obtain rfl : u = 0 := hz u (by simp)
    have hstep : applyCtrlUpdates st (0 :: rest) =
        applyCtrlUpdates
          (rpmsg_tty_ctrl_handler st [DATA_TERM_READY, 0]).1 rest := rfl
    rw [hstep]
    apply ih
    · intro v hv
      exact hz v (by simp [hv])
    · simp [rpmsg_tty_ctrl_handler, sizeof_rpmsg_tty_ctrl, DATA_TERM_READY]

end RpmsgTty

namespace RpmsgTty

/-- The default value of getLastD is irrelevant on a nonempty list. -/
theorem getLastD_ne_nil (l : List Nat) (h : l ≠ []) (a b : Nat) :
    l.getLastD a = l.getLastD b := by
  cases l with
  | nil => exact absurd rfl h
  | cons x xs => simp [List.getLastD, List.getLast?_cons]

/-- Folding TerminalReady updates leaves the flag equal to the boolean of
the last applied value. -/
theorem applyCtrlUpdates_getLast (st : TtyState) (updates : List Nat)
    (h : updates ≠ []) :
    ((applyCtrlUpdates st updates).cts = true ↔ updates.getLastD 0 ≠ 0) := by
  induction updates generalizing st with
  | nil => exact absurd rfl h
  | cons u rest ih =>
    have hstep : applyCtrlUpdates st (u :: rest) =
        applyCtrlUpdates
          (rpmsg_tty_ctrl_handler st [DATA_TERM_READY, u]).1 rest := rfl
    by_cases hr : rest = []
    · subst hr
      rw [hstep]
      by_cases hu : u = 0
      · subst hu
        simp [applyCtrlUpdates, rpmsg_tty_ctrl_handler,
          sizeof_rpmsg_tty_ctrl, DATA_TERM_READY, List.getLastD]
      · simp [applyCtrlUpdates, rpmsg_tty_ctrl_handler,
          sizeof_rpmsg_tty_ctrl, DATA_TERM_READY, hu, List.getLastD]
    · rw [hstep, ih _ hr, List.getLastD_cons, getLastD_ne_nil rest hr u 0]

end RpmsgTty

namespace RpmsgTty

/-- C1: a freshly allocated port has its flow-control flag (`cts`) clear,
the flag stays clear under any sequence of zero-valued TerminalReady
updates, and a write performed while the flag is clear returns 0 bytes
consumed without ever calling the transport — so every write before the
first nonzero TerminalReady update is a no-op returning 0. -/
theorem c1_blocked_write_is_noop
    (kallocOk : Bool) (used : Finset Nat) (p : Port) (used2 : Finset Nat)
    (halloc : rpmsg_tty_alloc_cport kallocOk used = .ok (p, used2))
    (updates : List Nat) (hz : ∀ v ∈ updates, v = 0)
    (msz : Int) (allocOk : Bool) (ts : Int) (buf : List Nat)
    (hbuf : buf ≠ []) :
    p.cts = false ∧
    (applyCtrlUpdates ⟨p.cts, [], 0⟩ updates).cts = false ∧
    rpmsg_tty_write (applyCtrlUpdates ⟨p.cts, [], 0⟩ updates).cts
      msz allocOk ts buf = ⟨0, none⟩ := by
  obtain ⟨_, _, _, _, hcts⟩ := alloc_cport_ok kallocOk used p used2 halloc
  have hflag : (applyCtrlUpdates ⟨p.cts, [], 0⟩ updates).cts = false :=
    applyCtrlUpdates_zeros _ updates hz hcts
  refine ⟨hcts, hflag, ?_⟩
  rw [rpmsg_tty_write, if_pos hflag]

/-- C1 witness: a concrete fresh port, two zero updates, then a 1-byte
write that returns 0 with no transport send. -/
theorem c1_blocked_write_is_noop_witness :
    rpmsg_tty_alloc_cport true ∅ = .ok (⟨0, false⟩, insert 0 ∅) ∧
    (∀ v ∈ [0, 0], v = (0 : Nat)) ∧ ([5] : List Nat) ≠ [] ∧
    ((⟨0, false⟩ : Port).cts = false ∧
     (applyCtrlUpdates ⟨(⟨0, false⟩ : Port).cts, [], 0⟩ [0, 0]).cts = false ∧
     rpmsg_tty_write
       (applyCtrlUpdates ⟨(⟨0, false⟩ : Port).cts, [], 0⟩ [0, 0]).cts
       496 true 0 [5] = ⟨0, none⟩) :=
  ⟨rfl, by decide, by decide,
    c1_blocked_write_is_noop true ∅ ⟨0, false⟩ (insert 0 ∅) rfl
      [0, 0] (by decide) 496 true 0 [5] (by decide)⟩

/-- C2: after any nonempty sequence of valid TerminalReady updates the flag
equals the boolean (nonzero = true) of the most recently applied value,
and a nonzero update sets the flag and fires exactly one writer wakeup. -/
theorem c2_last_write_wins (st : TtyState) (updates : List Nat)
    (h : updates ≠ []) (v : Nat) (hv : v ≠ 0) :
    ((applyCtrlUpdates st updates).cts = true ↔ updates.getLastD 0 ≠ 0) ∧
    (rpmsg_tty_ctrl_handler st [DATA_TERM_READY, v]).1.cts = true ∧
    (rpmsg_tty_ctrl_handler st [DATA_TERM_READY, v]).1.wakeups =
      st.wakeups + 1 := by
  refine ⟨applyCtrlUpdates_getLast st updates h, ?_, ?_⟩ <;>
    simp [rpmsg_tty_ctrl_handler, sizeof_rpmsg_tty_ctrl, DATA_TERM_READY, hv]

/-- C2 witness: the update sequence [1, 0, 1] ends true, and a single
nonzero update fires a wakeup. -/
theorem c2_last_write_wins_witness :
    ([1, 0, 1] : List Nat) ≠ [] ∧ (1 : Nat) ≠ 0 ∧
    (((applyCtrlUpdates ⟨false, [], 0⟩ [1, 0, 1]).cts = true ↔
        ([1, 0, 1] : List Nat).getLastD 0 ≠ 0) ∧
     (rpmsg_tty_ctrl_handler ⟨false, [], 0⟩ [DATA_TERM_READY, 1]).1.cts =
        true ∧
     (rpmsg_tty_ctrl_handler ⟨false, [], 0⟩ [DATA_TERM_READY, 1]).1.wakeups =
        (⟨false, [], 0⟩ : TtyState).wakeups + 1) :=
  ⟨by decide, by decide,
    c2_last_write_wins ⟨false, [], 0⟩ [1, 0, 1] (by decide) 1 (by decide)⟩

/-- C3: the dispatcher rejects any message of length ≤ 1 or with a type
tag outside {0, 1} with -EINVAL, leaving the state untouched and invoking
no handler; and the control handler reports an unknown control-kind byte
as an error with the state (hence the flag) unchanged. -/
theorem c3_dispatcher_rejects_malformed
    (space : Nat) (st : TtyState) (data : List Nat)
    (hbad : data.length ≤ 1 ∨ 2 ≤ data.headD 0)
    (st2 : TtyState) (cdata : List Nat)
    (hlen : 1 < cdata.length) (hkind : cdata.headD 0 ≠ DATA_TERM_READY) :
    rpmsg_tty_cb space st data = ⟨-EINVAL, st, none⟩ ∧
    rpmsg_tty_ctrl_handler st2 cdata = (st2, true) := by
  constructor
  · rw [rpmsg_tty_cb, if_pos]
    exact hbad
  · rw [rpmsg_tty_ctrl_handler,
      if_neg (show ¬cdata.length ≤ sizeof_rpmsg_tty_ctrl by
        simp only [sizeof_rpmsg_tty_ctrl]; omega),
      if_neg hkind]

/-- C3 witness: the unknown-tag message [3, 9] is rejected with -EINVAL,
and the control payload [5, 1] (unknown kind 5) is reported as an error
with the state unchanged. -/
theorem c3_dispatcher_rejects_malformed_witness :
    (([3, 9] : List Nat).length ≤ 1 ∨ 2 ≤ ([3, 9] : List Nat).headD 0) ∧
    1 < ([5, 1] : List Nat).length ∧
    ([5, 1] : List Nat).headD 0 ≠ DATA_TERM_READY ∧
    (rpmsg_tty_cb 16 ⟨false, [], 0⟩ [3, 9] = ⟨-EINVAL, ⟨false, [], 0⟩, none⟩ ∧
     rpmsg_tty_ctrl_handler ⟨true, [], 2⟩ [5, 1] = (⟨true, [], 2⟩, true)) :=
  ⟨by decide, by decide, by decide,
    c3_dispatcher_rejects_malformed 16 ⟨false, [], 0⟩ [3, 9] (by decide)
      ⟨true, [], 2⟩ [5, 1] (by decide) (by decide)⟩

end RpmsgTty

namespace RpmsgTty

/-- C4 counterexample: a total-length-1 frame carrying the Data tag is
rejected by the dispatcher with -EINVAL and no handler invocation, contrary
to the claim that it is accepted with an empty payload. -/
theorem c4_length_one_data_rejected_cex :
    rpmsg_tty_cb 16 ⟨false, [], 0⟩ [RPMSG_DATA] =
      ⟨-EINVAL, ⟨false, [], 0⟩, none⟩ ∧
    (rpmsg_tty_cb 16 ⟨false, [], 0⟩ [RPMSG_DATA]).ret ≠ 0 := by
  constructor <;> decide

/-- C4 (amended): every total-length-1 frame is rejected with -EINVAL
whatever its tag; a Data frame is accepted at total length ≥ 2 and its
len - 1 payload bytes are dispatched; a Control frame passes the
dispatcher at total length ≥ 2, but the control handler rejects the bare
header (no value byte) with the state unchanged, so a Control state update
requires total length ≥ 3, at which point it is applied. -/
theorem c4_decode_length_bounds
    (space : Nat) (st : TtyState) (b : Nat) (rest : List Nat)
    (vs : List Nat) :
    (rpmsg_tty_cb space st [RPMSG_DATA]).ret = -EINVAL ∧
    (rpmsg_tty_cb space st [RPMSG_CTRL]).ret = -EINVAL ∧
    (rpmsg_tty_cb space st (RPMSG_DATA :: b :: rest)).ret = 0 ∧
    (rpmsg_tty_cb space st (RPMSG_DATA :: b :: rest)).invoked =
      some (RPMSG_DATA, rest.length + 1) ∧
    rpmsg_tty_cb space st [RPMSG_CTRL, DATA_TERM_READY] =
      ⟨0, st, some (RPMSG_CTRL, 1)⟩ ∧
    (rpmsg_tty_cb space st
      (RPMSG_CTRL :: DATA_TERM_READY :: 1 :: vs)).st.cts = true := by
  refine ⟨?_, ?_, ?_, ?_, ?_, ?_⟩ <;>
    simp [rpmsg_tty_cb, rpmsg_tty_data_handler, rpmsg_tty_ctrl_handler,
      sizeof_rpmsg_tty_payload, sizeof_rpmsg_tty_ctrl,
      NUM_RPMSG_TTY_TYPE, RPMSG_DATA, RPMSG_CTRL, DATA_TERM_READY]

/-- C5 counterexample: the empty Data payload fits the transport maximum
(496), yet its encoding is the bare length-1 tag frame, which the decoder
rejects — so the claimed round-trip fails. -/
theorem c5_roundtrip_cex :
    (0 : Nat) + sizeof_rpmsg_tty_payload ≤ 496 ∧
    decode (encodeData 496 []) = none ∧
    decode (encodeData 496 []) ≠ some (RPMSG_DATA, []) := by
  refine ⟨by decide, by decide, by decide⟩

/-- A successful write (flag set, allocation and send succeed) hands the
transport exactly the tag-prefixed, size-limited frame and reports the
number of payload bytes that fit. -/
theorem rpmsg_tty_write_sent (maxs : Nat) (buf : List Nat) :
    rpmsg_tty_write true (maxs : Int) true 0 buf =
      ⟨((min (buf.length + sizeof_rpmsg_tty_payload) maxs -
          sizeof_rpmsg_tty_payload : Nat) : Int),
       some (RPMSG_DATA ::
         buf.take (min (buf.length + sizeof_rpmsg_tty_payload) maxs -
           sizeof_rpmsg_tty_payload))⟩ := by
  have hm : ¬((maxs : Int) < 0) := Int.not_lt.mpr (Int.natCast_nonneg maxs)
  simp [rpmsg_tty_write, hm]

/-- C5 (amended): the Data round-trip holds for nonempty payloads whose
framed size fits the transport maximum, and the write path hands exactly
that encoding to the transport, reporting the payload length; the Control
round-trip holds unconditionally (the control path never truncates); an
empty Data payload encodes to a length-1 frame the decoder rejects; an
oversized Data payload is deterministically truncated to max - 1 bytes and
the write reports max - 1 bytes consumed. -/
theorem c5_roundtrip_and_truncation
    (payload : List Nat) (maxs : Nat) (hp : payload ≠ [])
    (hfit : payload.length + sizeof_rpmsg_tty_payload ≤ maxs)
    (values : List Nat) (big : List Nat) (maxb : Nat) (hb : 1 ≤ maxb)
    (hbig : maxb < big.length + sizeof_rpmsg_tty_payload) :
    decode (encodeData maxs payload) = some (RPMSG_DATA, payload) ∧
    decode (encodeCtrl values) =
      some (RPMSG_CTRL, DATA_TERM_READY :: values) ∧
    decode (encodeData maxs []) = none ∧
    rpmsg_tty_write true (maxs : Int) true 0 payload =
      ⟨(payload.length : Int), some (encodeData maxs payload)⟩ ∧
    (encodeData maxb big).tail.length = maxb - 1 ∧
    rpmsg_tty_write true (maxb : Int) true 0 big =
      ⟨((maxb - 1 : Nat) : Int), some (encodeData maxb big)⟩ := by
  simp only [sizeof_rpmsg_tty_payload] at hfit hbig
  have hlen : payload.length ≥ 1 := by
    cases payload with
    | nil => exact absurd rfl hp
    | cons x xs => simp
  have hminfit : min (payload.length + 1) maxs = payload.length + 1 :=
    Nat.min_eq_left hfit
  have hminbig : min (big.length + 1) maxb = maxb :=
    Nat.min_eq_right (by omega)
  have hencfit : encodeData maxs payload = RPMSG_DATA :: payload := by
    rw [encodeData]
    simp only [sizeof_rpmsg_tty_payload, hminfit, Nat.add_sub_cancel,
      List.take_length]
  have hencbig : encodeData maxb big =
      RPMSG_DATA :: big.take (maxb - 1) := by
    rw [encodeData]
    simp only [sizeof_rpmsg_tty_payload, hminbig]
  refine ⟨?_, ?_, ?_, ?_, ?_, ?_⟩
  · rw [hencfit, decode]
    rw [if_neg (by
      simp only [List.length_cons, List.headD_cons, RPMSG_DATA,
        NUM_RPMSG_TTY_TYPE, sizeof_rpmsg_tty_payload]
      omega)]
    simp [RPMSG_DATA]
  · rw [encodeCtrl, decode]
    rw [if_neg (by
      simp only [List.length_cons, List.headD_cons, RPMSG_CTRL,
        NUM_RPMSG_TTY_TYPE, sizeof_rpmsg_tty_payload]
      omega)]
    simp [RPMSG_CTRL, DATA_TERM_READY]
  · rw [encodeData, decode]
    simp [RPMSG_DATA, NUM_RPMSG_TTY_TYPE, sizeof_rpmsg_tty_payload]
  · rw [rpmsg_tty_write_sent, hencfit]
    simp only [sizeof_rpmsg_tty_payload, hminfit, Nat.add_sub_cancel,
      List.take_length]
  · rw [hencbig]
    simp only [List.tail_cons, List.length_take]
    omega
  · rw [rpmsg_tty_write_sent, encodeData]
    simp only [sizeof_rpmsg_tty_payload, hminbig]

/-- C5 witness: payload [7] round-trips under max 496; the 10-byte payload
is truncated to 4 bytes under max 5 and the write reports 4. -/
theorem c5_roundtrip_and_truncation_witness :
    ([7] : List Nat) ≠ [] ∧
    ([7] : List Nat).length + sizeof_rpmsg_tty_payload ≤ 496 ∧
    (1 : Nat) ≤ 5 ∧
    (5 : Nat) < ([1, 2, 3, 4, 5, 6, 7, 8, 9, 10] : List Nat).length +
      sizeof_rpmsg_tty_payload ∧
    (decode (encodeData 496 [7]) = some (RPMSG_DATA, [7]) ∧
     decode (encodeCtrl [1]) = some (RPMSG_CTRL, DATA_TERM_READY :: [1]) ∧
     decode (encodeData 496 []) = none ∧
     rpmsg_tty_write true 496 true 0 [7] =
       ⟨(([7] : List Nat).length : Int), some (encodeData 496 [7])⟩ ∧
     (encodeData 5 [1, 2, 3, 4, 5, 6, 7, 8, 9, 10]).tail.length = 5 - 1 ∧
     rpmsg_tty_write true 5 true 0 [1, 2, 3, 4, 5, 6, 7, 8, 9, 10] =
       ⟨((5 - 1 : Nat) : Int),
        some (encodeData 5 [1, 2, 3, 4, 5, 6, 7, 8, 9, 10])⟩) :=
  ⟨by decide, by decide, by decide, by decide,
    c5_roundtrip_and_truncation [7] 496 (by decide) (by decide) [1]
      [1, 2, 3, 4, 5, 6, 7, 8, 9, 10] 5 (by decide) (by decide)⟩

/-- C6: when the transport's non-blocking send rejects the frame, the data
write returns 0 bytes written (not an error code), and the control-send
path swallows the negative transport result and returns 0. -/
theorem c6_send_rejected_swallowed
    (maxs : Int) (hmax : 0 ≤ maxs) (buf : List Nat)
    (ts : Int) (hts : ts ≠ 0)
    (values : List Nat) (cs : Int) (hcs : cs < 0) :
    (rpmsg_tty_write true maxs true ts buf).ret = 0 ∧
    (rpmsg_tty_write_control true cs values).1 = 0 := by
  constructor
  · rw [rpmsg_tty_write]
    rw [if_neg (by simp), if_neg (by omega), if_neg (by simp),
      if_pos hts]
  · rw [rpmsg_tty_write_control, if_neg (by simp), if_pos hcs]

/-- C6 witness: with rpmsg_trysend returning -EBUSY (-16), the 3-byte data
write reports 0 and the control send reports 0. -/
theorem c6_send_rejected_swallowed_witness :
    (0 : Int) ≤ 496 ∧ (-16 : Int) ≠ 0 ∧ (-16 : Int) < 0 ∧
    ((rpmsg_tty_write true 496 true (-16) [1, 2, 3]).ret = 0 ∧
     (rpmsg_tty_write_control true (-16) [1]).1 = 0) :=
  ⟨by decide, by decide, by decide,
    c6_send_rejected_swallowed 496 (by decide) [1, 2, 3] (-16) (by decide)
      [1] (-16) (by decide)⟩

end RpmsgTty

namespace RpmsgTty

/-- C7: the registry holds at most 32 ids (0..31); a successful creation
takes the lowest currently free id and inserts it; creation with all 32
ids in use fails with -ENOSPC (no insertion — the error carries no
registry); and after a release the freed id is allocatable again and is
reused by the next creation when it is the lowest free id. -/
theorem c7_registry_capacity_and_reuse
    (used : Finset Nat) (p : Port) (used2 : Finset Nat)
    (halloc : rpmsg_tty_alloc_cport true used = .ok (p, used2))
    (full : Finset Nat) (hfull : ∀ i < MAX_TTY_RPMSG, i ∈ full)
    (r : Finset Nat) (i : Nat) (hi : i < MAX_TTY_RPMSG)
    (hlow : ∀ j < i, j ∈ rpmsg_tty_release_cport r i) :
    (p.id < MAX_TTY_RPMSG ∧ p.id ∉ used ∧ (∀ j < p.id, j ∈ used) ∧
      used2 = insert p.id used) ∧
    rpmsg_tty_alloc_cport true full = .error (-ENOSPC) ∧
    rpmsg_tty_alloc_cport true (rpmsg_tty_release_cport r i) =
      .ok (⟨i, false⟩, insert i (rpmsg_tty_release_cport r i)) := by
  obtain ⟨h1, h2, h3, h4, _⟩ := alloc_cport_ok true used p used2 halloc
  refine ⟨⟨h1, h2, h3, h4⟩, ?_, ?_⟩
  · have hnone : idr_alloc full = none := by
      cases hm : idr_alloc full with
      | none => rfl
      | some k =>
        obtain ⟨hk1, hk2, _⟩ := lowestFree_some hm
        exact absurd (hfull k hk1) hk2
    rw [rpmsg_tty_alloc_cport, if_neg (by simp), hnone]
  · have hsome : idr_alloc (rpmsg_tty_release_cport r i) = some i :=
      lowestFree_eq_some _ _ i hi (Finset.not_mem_erase i r) hlow
    rw [rpmsg_tty_alloc_cport, if_neg (by simp), hsome]

/-- C7 witness: allocating over used ids {0, 2} yields the lowest free id
1; allocation over the full range 0..31 fails with -ENOSPC; releasing id 1
from {0, 1, 2} lets the next allocation reuse id 1. -/
theorem c7_registry_capacity_and_reuse_witness :
    rpmsg_tty_alloc_cport true {0, 2} = .ok (⟨1, false⟩, insert 1 {0, 2}) ∧
    (∀ i < MAX_TTY_RPMSG, i ∈ Finset.range 32) ∧
    1 < MAX_TTY_RPMSG ∧
    (∀ j < 1, j ∈ rpmsg_tty_release_cport {0, 1, 2} 1) ∧
    (((⟨1, false⟩ : Port).id < MAX_TTY_RPMSG ∧
      (⟨1, false⟩ : Port).id ∉ ({0, 2} : Finset Nat) ∧
      (∀ j < (⟨1, false⟩ : Port).id, j ∈ ({0, 2} : Finset Nat)) ∧
      insert 1 ({0, 2} : Finset Nat) =
        insert (⟨1, false⟩ : Port).id {0, 2}) ∧
     rpmsg_tty_alloc_cport true (Finset.range 32) = .error (-ENOSPC) ∧
     rpmsg_tty_alloc_cport true (rpmsg_tty_release_cport {0, 1, 2} 1) =
       .ok (⟨1, false⟩, insert 1 (rpmsg_tty_release_cport {0, 1, 2} 1))) :=
  by
  have hl : lowestFree ({0, 2} : Finset Nat) 32 = some 1 := by decide
  have halloc : rpmsg_tty_alloc_cport true {0, 2} =
      .ok (⟨1, false⟩, insert 1 {0, 2}) := by
    rw [rpmsg_tty_alloc_cport, if_neg (by simp), idr_alloc, MAX_TTY_RPMSG, hl]
  exact ⟨halloc, by decide, by decide, by decide,
    c7_registry_capacity_and_reuse {0, 2} ⟨1, false⟩ (insert 1 {0, 2}) halloc
      (Finset.range 32) (by decide) {0, 1, 2} 1 (by decide) (by decide)⟩

/-- C8: when device registration fails during probe, the creation is
rolled back atomically — the registration error is returned and the
registry is exactly what it was before the probe, so no half-registered
port remains visible. -/
theorem c8_probe_rollback (kOk : Bool) (used : Finset Nat) (e : Int)
    (p : Port) (used2 : Finset Nat)
    (halloc : rpmsg_tty_alloc_cport kOk used = .ok (p, used2)) :
    rpmsg_tty_probe kOk (.error e) used = (.error e, used) := by
  obtain ⟨_, h2, _, h4, _⟩ := alloc_cport_ok kOk used p used2 halloc
  simp only [rpmsg_tty_probe, halloc]
  subst h4
  rw [rpmsg_tty_release_cport, Finset.erase_insert h2]

/-- C8 witness: probing over an empty registry with registration failing
with -19 (ENODEV) returns that error and leaves the registry empty. -/
theorem c8_probe_rollback_witness :
    rpmsg_tty_alloc_cport true ∅ = .ok (⟨0, false⟩, insert 0 ∅) ∧
    rpmsg_tty_probe true (.error (-19)) ∅ = (.error (-19), ∅) :=
  ⟨rfl, c8_probe_rollback true ∅ (-19) ⟨0, false⟩ (insert 0 ∅) rfl⟩

/-- C9: write_room is gated by the same `cts` flag as the write path — it
returns 0 while the flag is clear (as does a write, which also never calls
the transport), and the transport payload size minus the one-byte
frame-type header when the flag is set. -/
theorem c9_write_room_same_gate (ps : Int) (msz : Int) (aOk : Bool)
    (ts : Int) (buf : List Nat) :
    rpmsg_tty_write_room false ps = 0 ∧
    rpmsg_tty_write_room true ps = ps - (sizeof_rpmsg_tty_payload : Int) ∧
    rpmsg_tty_write false msz aOk ts buf = ⟨0, none⟩ := by
  refine ⟨rfl, rfl, ?_⟩
  rw [rpmsg_tty_write, if_pos rfl]

/-- C10: any message the dispatcher accepts reaches its handler with a
payload of at least one byte, so the data handler's zero-length
early-return branch is unreachable through the dispatcher. -/
theorem c10_dispatched_payload_nonempty (space : Nat) (st : TtyState)
    (data : List Nat) (k n : Nat)
    (h : (rpmsg_tty_cb space st data).invoked = some (k, n)) :
    1 ≤ n ∧ (k = RPMSG_DATA →
      (rpmsg_tty_data_handler space st data.tail).2 = false) := by
  rw [rpmsg_tty_cb] at h
  by_cases hc : data.length ≤ sizeof_rpmsg_tty_payload ∨
      NUM_RPMSG_TTY_TYPE ≤ data.headD 0
  · rw [if_pos hc] at h
    exact absurd h (by simp)
  · rw [if_neg hc] at h
    push_neg at hc
    obtain ⟨hlen2, _⟩ := hc
    have hlen : 1 < data.length := by
      simpa [sizeof_rpmsg_tty_payload] using hlen2
    have htail : 1 ≤ data.tail.length := by
      rw [List.length_tail]; omega
    by_cases hd : data.headD 0 = RPMSG_DATA
    · rw [if_pos hd] at h
      obtain ⟨hk, hn⟩ : RPMSG_DATA = k ∧ data.tail.length = n := by
        simpa using h
      subst hk
      subst hn
      refine ⟨htail, fun _ => ?_⟩
      rw [rpmsg_tty_data_handler, if_neg (by omega)]
    · rw [if_neg hd] at h
      obtain ⟨hk, hn⟩ : RPMSG_CTRL = k ∧ data.tail.length = n := by
        simpa using h
      subst hk
      subst hn
      exact ⟨htail, fun hkd => absurd hkd (by decide)⟩

/-- C10 witness: the accepted two-byte data frame [0, 7] reaches the data
handler with a one-byte payload and the early-return branch not taken. -/
theorem c10_dispatched_payload_nonempty_witness :
    (rpmsg_tty_cb 16 ⟨false, [], 0⟩ [0, 7]).invoked =
      some (RPMSG_DATA, 1) ∧
    (1 ≤ 1 ∧ (RPMSG_DATA = RPMSG_DATA →
      (rpmsg_tty_data_handler 16 ⟨false, [], 0⟩
        ([0, 7] : List Nat).tail).2 = false)) :=
  ⟨by decide,
    c10_dispatched_payload_nonempty 16 ⟨false, [], 0⟩ [0, 7] RPMSG_DATA 1
      (by decide)⟩

end RpmsgTty
